import Mathlib

/-!
Verification of the refresh-loop core of a game-server status bot
(src/index.js), shallowly embedded in Lean 4.

The embedded pieces are:
* `updatePlayerHistory` — the bounded, interval-coalescing player-count
  history (src/index.js lines 46-69);
* `checkServerStatus` — the status probe normalising success/failure into
  a tagged result (lines 187-205);
* `generatePlayerChart` — the chart renderer gate (lines 72-167), with the
  raster backend abstracted as a function argument;
* `updateServerStatus` — the per-tick pipeline over the bot state, with
  external effects (channel fetch, probe, edit/send outcomes) supplied as
  oracle inputs and the order of operations recorded as an event trace
  (lines 207-294);
* the `interactionCreate` status-command handler (lines 317-387).
-/

/-- One entry of the player-count history: `{timestamp, count}`. -/
structure Sample where
  timestamp : Nat
  count : Nat
deriving Repr, DecidableEq

/-- The sampling interval used by `updatePlayerHistory`: 3600000 ms (1 hour). -/
def samplingInterval : Nat := 3600000

/-- Embedding of `updatePlayerHistory(serverId, playerCount, maxHistory)`
(src/index.js lines 46-69), acting on the series stored for one server id.
The JS guard `history.length === 0 || (currentTime - last.timestamp) >= 3600000`
is rendered as the `getLast?` match plus `last.timestamp + 3600000 <= currentTime`;
`history.push` plus the `history.shift()` on overflow becomes append-then-tail;
the in-place `history[len-1].count = playerCount` becomes
`dropLast ++ [{last.timestamp, playerCount}]`. -/
def updatePlayerHistory (history : List Sample) (playerCount : Nat)
    (currentTime : Nat) (maxHistory : Nat := 24) : List Sample :=
  match history.getLast? with
  | none =>
      let h := history ++ [⟨currentTime, playerCount⟩]
      if maxHistory < h.length then h.tail else h
  | some last =>
      if last.timestamp + samplingInterval ≤ currentTime then
        let h := history ++ [⟨currentTime, playerCount⟩]
        if maxHistory < h.length then h.tail else h
      else
        history.dropLast ++ [⟨last.timestamp, playerCount⟩]

/-- Fold a sequence of `(timestamp, playerCount)` observations through
`updatePlayerHistory` with a fixed capacity, oldest observation first. -/
def recordSeq (cap : Nat) (history : List Sample) : List (Nat × Nat) → List Sample
  | [] => history
  | (t, v) :: rest => recordSeq cap (updatePlayerHistory history v t cap) rest

/-- The spacing invariant of a history series: consecutive samples'
timestamps differ by at least one sampling interval. -/
def SpacedSeries (s : List Sample) : Prop :=
  (s.map Sample.timestamp).Chain' (fun a b => a + samplingInterval ≤ b)

/-- The spacing condition on a raw observation sequence `(timestamp, value)`:
consecutive observations are at least one sampling interval apart. -/
def SpacedObs (obs : List (Nat × Nat)) : Prop :=
  obs.Chain' (fun a b => a.1 + samplingInterval ≤ b.1)

/-- The samples an observation sequence denotes when every observation
appends. -/
def mkSamples (obs : List (Nat × Nat)) : List Sample :=
  obs.map fun p => ⟨p.1, p.2⟩

/-- The result shape of the external status query
(`minecraft-server-util`'s `status`), as read by `checkServerStatus`. -/
structure UtilStatus where
  playersOnline : Nat
  playersMax : Nat
  versionName : String
  motdClean : String
  roundTripLatency : Nat
deriving Repr, DecidableEq

/-- The normalised probe result built by `checkServerStatus`. -/
inductive Status where
  | online (players maxPlayers : Nat) (version description : String) (ping : Nat)
  | offline (error : String)
deriving Repr, DecidableEq

/-- Whether a probe result is the online variant (`status.online` in the
source). -/
def Status.isOnline : Status → Bool
  | .online .. => true
  | .offline _ => false

/-- Embedding of `checkServerStatus(ip, port)` (src/index.js lines 187-205).
The external network call is an oracle `Except` value; the function is total
on it: the catch clause turns any failure into an offline result carrying
the error message, and a success is unpacked into the online fields. -/
def checkServerStatus (result : Except String UtilStatus) : Status :=
  match result with
  | .ok r => .online r.playersOnline r.playersMax r.versionName r.motdClean r.roundTripLatency
  | .error e => .offline e

/-- Embedding of `generatePlayerChart(serverId, color)` (src/index.js lines
72-167), for the series stored under one server id. The canvas and chart
libraries are abstracted as `toBuffer`, the raster backend turning the drawn
series and accent colour into encoded image bytes; the guard
`history.length < 2 → null` is the code's own. -/
def generatePlayerChart (toBuffer : List Sample → String → List Nat)
    (history : List Sample) (color : String) : Option (List Nat) :=
  if history.length < 2 then none
  else some (toBuffer history color)

/-- Chart display settings of one target (config shape). -/
structure ChartSettings where
  enabled : Bool
  color : String
  historyHours : Nat
deriving Repr, DecidableEq

/-- Banner display settings of one target (config shape). -/
structure BannerSettings where
  enabled : Bool
  url : String
deriving Repr, DecidableEq

/-- Display settings of one target (config shape). -/
structure DisplaySettings where
  type : String
  chart : ChartSettings
  banner : BannerSettings
  showNextUpdate : Bool
deriving Repr, DecidableEq

/-- One configured target (`config.minecraft.servers[i]`). -/
structure ServerConfig where
  name : String
  ip : String
  port : Nat
  channelId : Nat
  updateInterval : Nat
  display : DisplaySettings
deriving Repr, DecidableEq

/-- Observable steps of one tick or one command invocation, recorded in
execution order. -/
inductive Event where
  | fetchChannel (channelId : Nat)
  | probe (ip : String) (port : Nat)
  | record (channelId : Nat) (players : Nat)
  | buildEmbed
  | renderChart (channelId : Nat)
  | editMessage (channelId : Nat)
  | sendMessage (channelId : Nat)
  | reply
deriving Repr, DecidableEq

/-- The bot's mutable module state: the `playerHistory` and `statusMessages`
maps, both keyed by channel id; an absent key is the empty series / no
handle. Message handles are opaque and modelled as numbers. -/
structure BotState where
  playerHistory : Nat → List Sample
  statusMessages : Nat → Option Nat

/-- Oracle for the external effects of one tick: whether the channel fetch
resolves, the outcome of the underlying status query, whether `edit` and
`send` succeed, the handle a successful `send` returns, and the current
time. -/
structure TickEnv where
  channelFound : Bool
  probeOutcome : Except String UtilStatus
  editOk : Bool
  sendOk : Bool
  newHandle : Nat
  now : Nat

/-- Embedding of `updateServerStatus(serverConfig)` (src/index.js lines
207-294): channel fetch with early return on failure, status probe, history
update when online, embed construction, chart generation gated on chart
display mode and the probe being online, and edit-or-send delivery where a
handle is stored only by a successful send when none existed. Returns the
new state, the trace of steps in execution order, and the chart buffer
attached to the message (if any). -/
def updateServerStatus (cfg : ServerConfig) (env : TickEnv)
    (toBuffer : List Sample → String → List Nat) (st : BotState) :
    BotState × List Event × Option (List Nat) :=
  if env.channelFound = false then
    (st, [Event.fetchChannel cfg.channelId], none)
  else
    let status := checkServerStatus env.probeOutcome
    let st1 : BotState :=
      match status with
      | .online p _ _ _ _ =>
          { st with playerHistory := fun c =>
              if c = cfg.channelId then
                (updatePlayerHistory (st.playerHistory cfg.channelId) p env.now
                  cfg.display.chart.historyHours)
              else st.playerHistory c }
      | .offline _ => st
    let recordEvents : List Event :=
      match status with
      | .online p _ _ _ _ => [Event.record cfg.channelId p]
      | .offline _ => []
    let chartGate : Bool :=
      cfg.display.type == "chart" && cfg.display.chart.enabled && status.isOnline
    let chartBuf : Option (List Nat) :=
      if chartGate then
        generatePlayerChart toBuffer (st1.playerHistory cfg.channelId)
          cfg.display.chart.color
      else none
    let chartEvents : List Event :=
      if chartGate then [Event.renderChart cfg.channelId] else []
    let preDeliver : List Event :=
      Event.fetchChannel cfg.channelId :: Event.probe cfg.ip cfg.port ::
        (recordEvents ++ (Event.buildEmbed :: chartEvents))
    match st1.statusMessages cfg.channelId with
    | some _ =>
        (st1, preDeliver ++ [Event.editMessage cfg.channelId], chartBuf)
    | none =>
        if env.sendOk then
          ({ st1 with statusMessages := fun c =>
              if c = cfg.channelId then some env.newHandle else st1.statusMessages c },
           preDeliver ++ [Event.sendMessage cfg.channelId], chartBuf)
        else
          (st1, preDeliver ++ [Event.sendMessage cfg.channelId], chartBuf)

/-- Lowercasing as used by the command handler's name comparison
(`s.name.toLowerCase() === serverName.toLowerCase()`), modelled
character-wise so that it evaluates in the kernel. -/
def toLowerStr (s : String) : String := ⟨s.data.map Char.toLower⟩

/-- Embedding of the `interactionCreate` status-command handler
(src/index.js lines 317-387): case-insensitive lookup of the requested
server name among the configured targets; on a miss, a not-found ephemeral
reply and nothing else; on a hit, a probe, an embed, an optional chart drawn
from the existing history, and an ephemeral reply. The handler never writes
`playerHistory` or reads or writes `statusMessages`. Returns the state, the
step trace, and the chart buffer attached to the reply (if any). -/
def handleStatusCommand (servers : List ServerConfig) (serverName : String)
    (env : TickEnv) (toBuffer : List Sample → String → List Nat)
    (st : BotState) : BotState × List Event × Option (List Nat) :=
  match servers.find? (fun s => toLowerStr s.name == toLowerStr serverName) with
  | none => (st, [Event.reply], none)
  | some server =>
      let status := checkServerStatus env.probeOutcome
      let chartGate : Bool :=
        server.display.type == "chart" && server.display.chart.enabled && status.isOnline
      let chartBuf : Option (List Nat) :=
        if chartGate then
          generatePlayerChart toBuffer (st.playerHistory server.channelId)
            server.display.chart.color
        else none
      let chartEvents : List Event :=
        if chartGate then [Event.renderChart server.channelId] else []
      (st, Event.probe server.ip server.port ::
        (Event.buildEmbed :: chartEvents) ++ [Event.reply], chartBuf)

/-- A concrete target used to evaluate the embedded pipeline. -/
def sampleServer : ServerConfig :=
  { name := "Survival"
    ip := "mc.example.com"
    port := 25565
    channelId := 1
    updateInterval := 60000
    display :=
      { type := "chart"
        chart := { enabled := true, color := "#3498db", historyHours := 24 }
        banner := { enabled := false, url := "" }
        showNextUpdate := true } }

/-- A concrete successful status-query result. -/
def sampleUtilStatus : UtilStatus :=
  { playersOnline := 5
    playersMax := 20
    versionName := "1.20.4"
    motdClean := "A Minecraft Server"
    roundTripLatency := 42 }

/-- A concrete tick oracle where everything succeeds. -/
def sampleTickEnv : TickEnv :=
  { channelFound := true
    probeOutcome := Except.ok sampleUtilStatus
    editOk := true
    sendOk := true
    newHandle := 99
    now := 0 }

/-- A concrete tick oracle where the channel fetch fails to resolve. -/
def noChannelTickEnv : TickEnv :=
  { channelFound := false
    probeOutcome := Except.ok sampleUtilStatus
    editOk := true
    sendOk := true
    newHandle := 99
    now := 0 }

/-- A concrete tick oracle where the status query fails. -/
def offlineTickEnv : TickEnv :=
  { channelFound := true
    probeOutcome := Except.error "connect ECONNREFUSED"
    editOk := true
    sendOk := true
    newHandle := 99
    now := 0 }

/-- The bot state at startup: no history, no stored message handles. -/
def emptyBotState : BotState :=
  { playerHistory := fun _ => []
    statusMessages := fun _ => none }

/-- A bot state with a two-sample history and a stored handle on channel 1. -/
def sampleBotState : BotState :=
  { playerHistory := fun c => if c = 1 then [⟨0, 5⟩, ⟨3600000, 7⟩] else []
    statusMessages := fun c => if c = 1 then some 7 else none }

/-- A one-point raster backend used to evaluate chart generation. -/
def sampleBackend : List Sample → String → List Nat := fun _ _ => [137]

/-- The player count a probe outcome records (0 is never used: offline
outcomes record nothing). -/
def probePlayers (r : Except String UtilStatus) : Nat :=
  match r with
  | .ok u => u.playersOnline
  | .error _ => 0

/-- The full order of the steps a tick can take, as the code executes them:
channel resolution first, then probe, record, embed build, chart render,
and delivery (edit or send). -/
def tickCanonicalOrder (cfg : ServerConfig) (env : TickEnv) : List Event :=
  [Event.fetchChannel cfg.channelId, Event.probe cfg.ip cfg.port,
   Event.record cfg.channelId (probePlayers env.probeOutcome), Event.buildEmbed,
   Event.renderChart cfg.channelId, Event.editMessage cfg.channelId,
   Event.sendMessage cfg.channelId]

/-- C1: a `record` call on a non-empty series whose newest sample is within
one sampling interval of the current time keeps the series length, all older
samples and all timestamps unchanged, and only overwrites the newest
sample's value with the new observation. -/
theorem updatePlayerHistory_coalesce (history : List Sample) (last : Sample)
    (playerCount currentTime cap : Nat)
    (hlast : history.getLast? = some last)
    (hwithin : currentTime < last.timestamp + samplingInterval) :
    (updatePlayerHistory history playerCount currentTime cap).length = history.length ∧
    (updatePlayerHistory history playerCount currentTime cap).map Sample.timestamp
      = history.map Sample.timestamp ∧
    (updatePlayerHistory history playerCount currentTime cap).dropLast = history.dropLast ∧
    (updatePlayerHistory history playerCount currentTime cap).getLast?
      = some ⟨last.timestamp, playerCount⟩ := by
  have hne : history ≠ [] := by
    intro h; rw [h] at hlast; simp at hlast
  have hupd : updatePlayerHistory history playerCount currentTime cap
      = history.dropLast ++ [⟨last.timestamp, playerCount⟩] := by
    unfold updatePlayerHistory
    rw [hlast]
    simp [Nat.not_le.mpr hwithin]
  have hgl : history.getLast hne = last := by
    have h2 := List.getLast?_eq_getLast history hne
    rw [hlast] at h2
    exact (Option.some.inj h2).symm
  have hsplit : history.dropLast ++ [last] = history := by
    rw [← hgl]; exact List.dropLast_append_getLast hne
  have hlen : history.dropLast.length + 1 = history.length := by
    conv_rhs => rw [← hsplit]
    simp
  refine ⟨?_, ?_, ?_, ?_⟩
  · rw [hupd, List.length_append, List.length_singleton, hlen]
  · rw [hupd]
    conv_rhs => rw [← hsplit]
    simp
  · rw [hupd]; simp
  · rw [hupd]; simp

/-- Witness for C1 at a concrete series and time. -/
theorem updatePlayerHistory_coalesce_witness :
    (updatePlayerHistory [⟨0, 5⟩, ⟨3600000, 7⟩] 9 3700000 24).length = 2 ∧
    (updatePlayerHistory [⟨0, 5⟩, ⟨3600000, 7⟩] 9 3700000 24).map Sample.timestamp
      = [0, 3600000] ∧
    (updatePlayerHistory [⟨0, 5⟩, ⟨3600000, 7⟩] 9 3700000 24).dropLast = [⟨0, 5⟩] ∧
    (updatePlayerHistory [⟨0, 5⟩, ⟨3600000, 7⟩] 9 3700000 24).getLast?
      = some ⟨3600000, 9⟩ := by
  have h := updatePlayerHistory_coalesce [⟨0, 5⟩, ⟨3600000, 7⟩] ⟨3600000, 7⟩ 9 3700000 24
    (by decide) (by decide)
  simpa using h

theorem updatePlayerHistory_nil (playerCount currentTime cap : Nat) :
    updatePlayerHistory [] playerCount currentTime cap
      = if cap < 1 then [] else [Sample.mk currentTime playerCount] := by
  unfold updatePlayerHistory
  simp

theorem updatePlayerHistory_of_getLast (history : List Sample) (last : Sample)
    (hl : history.getLast? = some last) (playerCount currentTime cap : Nat) :
    updatePlayerHistory history playerCount currentTime cap
      = if last.timestamp + samplingInterval ≤ currentTime then
          (if cap < history.length + 1
            then (history ++ [Sample.mk currentTime playerCount]).tail
            else history ++ [Sample.mk currentTime playerCount])
        else history.dropLast ++ [Sample.mk last.timestamp playerCount] := by
  by_cases htime : last.timestamp + samplingInterval ≤ currentTime <;>
    simp [updatePlayerHistory, hl, htime, List.length_append]

/-- C9: every `record` call preserves the spacing invariant: an observation
inside the current interval updates the newest sample's value in place
without touching timestamps, and a new sample is appended only when the
newest sample is at least one sampling interval old. -/
theorem updatePlayerHistory_preserves_spacing (history : List Sample)
    (playerCount currentTime cap : Nat) (h : SpacedSeries history) :
    SpacedSeries (updatePlayerHistory history playerCount currentTime cap) := by
  cases hl : history.getLast? with
  | none =>
    have he : history = [] := List.getLast?_eq_none_iff.mp hl
    subst he
    rw [updatePlayerHistory_nil]
    split <;> simp [SpacedSeries]
  | some last =>
    have hne : history ≠ [] := by
      intro he; rw [he] at hl; simp at hl
    rw [updatePlayerHistory_of_getLast history last hl]
    by_cases htime : last.timestamp + samplingInterval ≤ currentTime
    · rw [if_pos htime]
      have hfull : SpacedSeries (history ++ [Sample.mk currentTime playerCount]) := by
        unfold SpacedSeries at h ⊢
        rw [List.map_append, List.chain'_append]
        refine ⟨h, by simp, ?_⟩
        intro x hx y hy
        rw [List.getLast?_map, hl] at hx
        simp at hx hy
        subst hx; subst hy
        exact htime
      split
      · unfold SpacedSeries at hfull ⊢
        simpa using hfull.tail
      · exact hfull
    · rw [if_neg htime]
      have hgl : history.getLast hne = last := by
        have h2 := List.getLast?_eq_getLast history hne
        rw [hl] at h2
        exact (Option.some.inj h2).symm
      have hsplit : history.dropLast ++ [last] = history := by
        rw [← hgl]; exact List.dropLast_append_getLast hne
      unfold SpacedSeries at h ⊢
      rw [← hsplit] at h
      rw [List.map_append] at h ⊢
      simpa using h

/-- Witness for C9 at a concrete spaced series. -/
theorem updatePlayerHistory_preserves_spacing_witness :
    SpacedSeries (updatePlayerHistory [⟨0, 5⟩, ⟨3600000, 7⟩] 9 7200000 24) :=
  updatePlayerHistory_preserves_spacing [⟨0, 5⟩, ⟨3600000, 7⟩] 9 7200000 24
    (by simp [SpacedSeries, samplingInterval])

theorem getLast?_drop_of_lt {α : Type} (l : List α) (k : Nat) (hk : k < l.length) :
    (l.drop k).getLast? = l.getLast? := by
  have hne : l.drop k ≠ [] := by
    intro he
    have := List.drop_eq_nil_iff.mp he
    omega
  conv_rhs => rw [← List.take_append_drop k l]
  rw [List.getLast?_append_of_ne_nil (l.take k) hne]

theorem recordSeq_append (cap : Nat) (history : List Sample)
    (obs : List (Nat × Nat)) (x : Nat × Nat) :
    recordSeq cap history (obs ++ [x])
      = updatePlayerHistory (recordSeq cap history obs) x.2 x.1 cap := by
  induction obs generalizing history with
  | nil => rfl
  | cons y rest ih =>
    rw [List.cons_append]
    show recordSeq cap (updatePlayerHistory history y.2 y.1 cap) (rest ++ [x]) = _
    rw [ih]
    rfl

theorem updatePlayerHistory_appends (history : List Sample) (v t cap : Nat)
    (hcond : history = [] ∨
      ∃ last, history.getLast? = some last ∧ last.timestamp + samplingInterval ≤ t) :
    updatePlayerHistory history v t cap
      = if cap < history.length + 1
        then (history ++ [Sample.mk t v]).tail
        else history ++ [Sample.mk t v] := by
  rcases hcond with he | ⟨last, hl, htime⟩
  · subst he
    rw [updatePlayerHistory_nil]
    simp
  · rw [updatePlayerHistory_of_getLast history last hl, if_pos htime]

/-- C2: for observations spaced at least one sampling interval apart,
starting from the empty series, the series after all the calls is exactly
the capacity-sized suffix of the observation sequence: the length grows by
one per call up to the capacity and then stays at the capacity, with the
oldest sample evicted first (FIFO). -/
theorem recordSeq_spaced_fifo (cap : Nat) (obs : List (Nat × Nat))
    (hsp : SpacedObs obs) :
    recordSeq cap [] obs = (mkSamples obs).drop (obs.length - cap) ∧
    (recordSeq cap [] obs).length = min obs.length cap := by
  have main : ∀ o : List (Nat × Nat), SpacedObs o →
      recordSeq cap [] o = (mkSamples o).drop (o.length - cap) := by
    intro o
    induction o using List.reverseRecOn with
    | nil =>
      intro _
      simp [recordSeq, mkSamples]
    | append_singleton l x ih =>
      intro hspo
      have hspl : SpacedObs l := by
        unfold SpacedObs at hspo ⊢
        exact (List.chain'_append.mp hspo).1
      have hlastrel : ∀ a, l.getLast? = some a → a.1 + samplingInterval ≤ x.1 := by
        intro a ha
        unfold SpacedObs at hspo
        have h3 := (List.chain'_append.mp hspo).2.2
        exact h3 a (by simp [ha]) x (by simp)
      have hlen_mk : (mkSamples l).length = l.length := by simp [mkSamples]
      have hmk : mkSamples (l ++ [x]) = mkSamples l ++ [Sample.mk x.1 x.2] := by
        simp [mkSamples]
      rw [recordSeq_append, ih hspl]
      by_cases hd : (mkSamples l).drop (l.length - cap) = []
      · have hle2 := List.drop_eq_nil_iff.mp hd
        rw [hlen_mk] at hle2
        rw [hd, updatePlayerHistory_nil, hmk]
        by_cases hcap : cap < 1
        · rw [if_pos hcap]
          have hcap0 : cap = 0 := by omega
          subst hcap0
          symm
          apply List.drop_eq_nil_iff.mpr
          simp [hlen_mk]
        · rw [if_neg hcap]
          have hl0 : l.length = 0 := by omega
          have hlnil : l = [] := List.length_eq_zero.mp hl0
          subst hlnil
          have h10 : 1 - cap = 0 := by omega
          simp [mkSamples, h10]
      · have hk : l.length - cap < (mkSamples l).length := by
          rcases Nat.lt_or_ge (l.length - cap) (mkSamples l).length with h1 | h1
          · exact h1
          · exact absurd (List.drop_eq_nil_iff.mpr h1) hd
        have hlne : l ≠ [] := by
          intro he
          subst he
          simp [mkSamples] at hk
        have hal : l.getLast? = some (l.getLast hlne) := List.getLast?_eq_getLast l hlne
        have hgl : ((mkSamples l).drop (l.length - cap)).getLast?
            = some (Sample.mk (l.getLast hlne).1 (l.getLast hlne).2) := by
          rw [getLast?_drop_of_lt _ _ hk]
          unfold mkSamples
          rw [List.getLast?_map, hal]
          rfl
        have hrel : (l.getLast hlne).1 + samplingInterval ≤ x.1 := hlastrel _ hal
        rw [updatePlayerHistory_appends _ _ _ _
          (Or.inr ⟨Sample.mk (l.getLast hlne).1 (l.getLast hlne).2, hgl, hrel⟩)]
        have hdroplen : ((mkSamples l).drop (l.length - cap)).length
            = l.length - (l.length - cap) := by
          rw [List.length_drop, hlen_mk]
        have hdropappend : (mkSamples l).drop (l.length - cap) ++ [Sample.mk x.1 x.2]
            = (mkSamples l ++ [Sample.mk x.1 x.2]).drop (l.length - cap) :=
          (List.drop_append_of_le_length (by rw [hlen_mk]; omega)).symm
        have hlenapp : (l ++ [x]).length = l.length + 1 := by simp
        by_cases hcap2 : cap ≤ l.length
        · rw [if_pos (by rw [hdroplen]; omega)]
          rw [hdropappend, List.tail_drop, hmk, hlenapp]
          congr 1
          omega
        · rw [if_neg (by rw [hdroplen]; omega)]
          rw [hdropappend, hmk, hlenapp]
          congr 1
          omega
  refine ⟨main obs hsp, ?_⟩
  rw [main obs hsp, List.length_drop]
  have hlen_mk : (mkSamples obs).length = obs.length := by simp [mkSamples]
  rw [hlen_mk]
  omega

/-- Witness for C2 at a concrete spaced observation sequence and capacity 2:
three spaced observations against capacity 2 leave the last two samples. -/
theorem recordSeq_spaced_fifo_witness :
    recordSeq 2 [] [(0, 1), (3600000, 2), (7200000, 3)]
        = [⟨3600000, 2⟩, ⟨7200000, 3⟩] ∧
    (recordSeq 2 [] [(0, 1), (3600000, 2), (7200000, 3)]).length = 2 := by
  have h := recordSeq_spaced_fifo 2 [(0, 1), (3600000, 2), (7200000, 3)]
    (by simp [SpacedObs, samplingInterval])
  simpa [mkSamples] using h

/-- C3: the probe never raises to its caller: it is a total function of the
underlying status query's outcome; every failure becomes an Offline result
carrying the failure's error message, and every success becomes an Online
result populated with current players, max players, version name, MOTD and
round-trip latency. -/
theorem checkServerStatus_total_spec :
    (∀ e, checkServerStatus (Except.error e) = Status.offline e) ∧
    (∀ r, checkServerStatus (Except.ok r)
        = Status.online r.playersOnline r.playersMax r.versionName r.motdClean
            r.roundTripLatency) :=
  ⟨fun _ => rfl, fun _ => rfl⟩

/-- C5: the chart render returns none for every series with fewer than 2
samples; for every series with at least 2 samples and any colour it returns
a non-empty byte buffer, provided the raster backend always encodes to a
non-empty buffer. -/
theorem generatePlayerChart_spec (toBuffer : List Sample → String → List Nat)
    (hbe : ∀ h c, toBuffer h c ≠ [])
    (history : List Sample) (color : String) :
    (history.length < 2 → generatePlayerChart toBuffer history color = none) ∧
    (2 ≤ history.length →
      ∃ b, generatePlayerChart toBuffer history color = some b ∧ b ≠ []) := by
  constructor
  · intro hlt
    simp [generatePlayerChart, hlt]
  · intro hge
    refine ⟨toBuffer history color, ?_, hbe _ _⟩
    simp [generatePlayerChart, Nat.not_lt.mpr hge]

/-- Witness for C5: a one-point backend, a 1-sample series (none) and a
2-sample series (non-empty buffer). -/
theorem generatePlayerChart_spec_witness :
    (generatePlayerChart (fun _ _ => [37]) [⟨0, 1⟩] "#3498db" = none) ∧
    (∃ b, generatePlayerChart (fun _ _ => [37]) [⟨0, 1⟩, ⟨3600000, 2⟩] "#3498db"
        = some b ∧ b ≠ []) :=
  ⟨(generatePlayerChart_spec (fun _ _ => [37]) (fun _ _ => by simp)
      [⟨0, 1⟩] "#3498db").1 (by simp),
   (generatePlayerChart_spec (fun _ _ => [37]) (fun _ _ => by simp)
      [⟨0, 1⟩, ⟨3600000, 2⟩] "#3498db").2 (by simp)⟩

/-- C4: a tick whose probe result is Offline performs no history record and
no chart-render attempt: every channel's history series is exactly the same
after the tick, the trace contains no record step and no render step, and
no chart buffer is produced. -/
theorem updateServerStatus_offline_frame (cfg : ServerConfig) (env : TickEnv)
    (toBuffer : List Sample → String → List Nat) (st : BotState) (e : String)
    (hoff : env.probeOutcome = Except.error e) :
    (∀ c, (updateServerStatus cfg env toBuffer st).1.playerHistory c
        = st.playerHistory c) ∧
    (∀ c p, Event.record c p ∉ (updateServerStatus cfg env toBuffer st).2.1) ∧
    (∀ c, Event.renderChart c ∉ (updateServerStatus cfg env toBuffer st).2.1) ∧
    (updateServerStatus cfg env toBuffer st).2.2 = none := by
  have hstat : checkServerStatus env.probeOutcome = Status.offline e := by
    rw [hoff]; rfl
  unfold updateServerStatus
  rw [hstat]
  by_cases hcf : env.channelFound = false
  · simp [hcf]
  · simp only [hcf, if_neg, Bool.false_eq_true, not_false_eq_true, if_false]
    simp only [Status.isOnline, Bool.and_false, if_neg, Bool.false_eq_true,
      not_false_eq_true]
    cases hmsg : st.statusMessages cfg.channelId with
    | some h => simp
    | none =>
      by_cases hsend : env.sendOk
      · simp [hsend]
      · simp [hsend]

/-- Witness for C4: an offline tick on a concrete state leaves channel 1's
history unchanged and performs no record and no render step. -/
theorem updateServerStatus_offline_frame_witness :
    (updateServerStatus sampleServer offlineTickEnv sampleBackend sampleBotState).1.playerHistory 1
      = sampleBotState.playerHistory 1 ∧
    Event.record 1 5 ∉ (updateServerStatus sampleServer offlineTickEnv sampleBackend sampleBotState).2.1 ∧
    Event.renderChart 1 ∉ (updateServerStatus sampleServer offlineTickEnv sampleBackend sampleBotState).2.1 ∧
    (updateServerStatus sampleServer offlineTickEnv sampleBackend sampleBotState).2.2 = none := by
  have h := updateServerStatus_offline_frame sampleServer offlineTickEnv sampleBackend
    sampleBotState "connect ECONNREFUSED" (by rfl)
  exact ⟨h.1 1, h.2.1 1 5, h.2.2.1 1, h.2.2.2⟩

/-- C6: at most one handle per destination: a tick never touches other
destinations' handles; when a handle exists for the target's destination it
is preserved unchanged, no send (create) ever happens — even when the edit
fails — and the edit of the existing message is attempted whenever the
channel resolves; when no handle exists, a handle is stored exactly when
the channel resolves and the send succeeds. -/
theorem updateServerStatus_handle_spec (cfg : ServerConfig) (env : TickEnv)
    (toBuffer : List Sample → String → List Nat) (st : BotState) :
    (∀ c, c ≠ cfg.channelId →
      (updateServerStatus cfg env toBuffer st).1.statusMessages c
        = st.statusMessages c) ∧
    (∀ h, st.statusMessages cfg.channelId = some h →
      (updateServerStatus cfg env toBuffer st).1.statusMessages cfg.channelId
        = some h ∧
      (∀ c, Event.sendMessage c ∉ (updateServerStatus cfg env toBuffer st).2.1) ∧
      (env.channelFound = true →
        Event.editMessage cfg.channelId ∈ (updateServerStatus cfg env toBuffer st).2.1)) ∧
    (st.statusMessages cfg.channelId = none →
      (updateServerStatus cfg env toBuffer st).1.statusMessages cfg.channelId
        = if env.channelFound && env.sendOk then some env.newHandle else none) := by
  rcases env with ⟨cf, po, eo, so, nh, tnow⟩
  cases hmsg : st.statusMessages cfg.channelId with
  | some h0 =>
    cases cf <;> cases po <;> cases so <;>
      simp_all [updateServerStatus, checkServerStatus, Status.isOnline, hmsg]
  | none =>
    cases cf <;> cases po <;> cases so <;>
      simp_all [updateServerStatus, checkServerStatus, Status.isOnline, hmsg]

/-- Witness for C6: with a stored handle the tick edits and never sends;
with no stored handle and a successful send the new handle is stored. -/
theorem updateServerStatus_handle_spec_witness :
    (updateServerStatus sampleServer sampleTickEnv sampleBackend sampleBotState).1.statusMessages 1
      = some 7 ∧
    Event.sendMessage 1 ∉
      (updateServerStatus sampleServer sampleTickEnv sampleBackend sampleBotState).2.1 ∧
    Event.editMessage 1 ∈
      (updateServerStatus sampleServer sampleTickEnv sampleBackend sampleBotState).2.1 ∧
    (updateServerStatus sampleServer sampleTickEnv sampleBackend emptyBotState).1.statusMessages 1
      = some 99 := by
  have h1 := updateServerStatus_handle_spec sampleServer sampleTickEnv sampleBackend sampleBotState
  have h2 := updateServerStatus_handle_spec sampleServer sampleTickEnv sampleBackend emptyBotState
  have ha := h1.2.1 7 (by rfl)
  exact ⟨ha.1, ha.2.1 1, ha.2.2 (by rfl), (h2.2.2 (by rfl)).trans (by rfl)⟩

/-- C7 (amended): every tick's trace follows the order: destination
(channel) resolution first, then the status probe, then the history record
(if online), then the presentation build, then the chart render (if
applicable), and only then the message delivery; in particular the
destination resolution network call precedes the probe network call, and a
failed resolution stops the tick before the probe. -/
theorem updateServerStatus_step_order (cfg : ServerConfig) (env : TickEnv)
    (toBuffer : List Sample → String → List Nat) (st : BotState) :
    List.Sublist (updateServerStatus cfg env toBuffer st).2.1
      (tickCanonicalOrder cfg env) ∧
    ((updateServerStatus cfg env toBuffer st).2.1).head?
      = some (Event.fetchChannel cfg.channelId) ∧
    (env.channelFound = false →
      (updateServerStatus cfg env toBuffer st).2.1
        = [Event.fetchChannel cfg.channelId]) := by
  rcases env with ⟨cf, po, eo, so, nh, tnow⟩
  cases cf <;> cases po <;> cases so <;>
    simp [updateServerStatus, checkServerStatus, Status.isOnline, tickCanonicalOrder,
      probePlayers]
  all_goals
    cases hmsg : st.statusMessages cfg.channelId <;>
      by_cases hcg : cfg.display.type = "chart" ∧ cfg.display.chart.enabled = true <;>
      simp [hmsg, hcg]

/-- C7 counterexample: on a concrete fully-successful tick the trace starts
with the destination (channel) resolution and the probe comes second, so
the probe network call does not precede the destination resolution call as
claimed. -/
theorem tick_probe_does_not_precede_resolution :
    (updateServerStatus sampleServer sampleTickEnv sampleBackend emptyBotState).2.1
      = [Event.fetchChannel 1, Event.probe "mc.example.com" 25565, Event.record 1 5,
         Event.buildEmbed, Event.renderChart 1, Event.sendMessage 1] ∧
    ¬ (List.indexOf (Event.probe "mc.example.com" 25565)
          (updateServerStatus sampleServer sampleTickEnv sampleBackend emptyBotState).2.1
        < List.indexOf (Event.fetchChannel 1)
          (updateServerStatus sampleServer sampleTickEnv sampleBackend emptyBotState).2.1) := by
  constructor
  · rfl
  · decide

/-- C8: the on-demand status command never records history and never reads
or writes a stored message handle: the state is returned unchanged, the
trace contains no record, edit or send step and contains the one-off reply,
and any chart attached was generated from the existing history snapshot of
the matched target's channel. -/
theorem handleStatusCommand_single_shot (servers : List ServerConfig)
    (serverName : String) (env : TickEnv)
    (toBuffer : List Sample → String → List Nat) (st : BotState) :
    (handleStatusCommand servers serverName env toBuffer st).1 = st ∧
    (∀ c p, Event.record c p
      ∉ (handleStatusCommand servers serverName env toBuffer st).2.1) ∧
    (∀ c, Event.editMessage c
      ∉ (handleStatusCommand servers serverName env toBuffer st).2.1) ∧
    (∀ c, Event.sendMessage c
      ∉ (handleStatusCommand servers serverName env toBuffer st).2.1) ∧
    Event.reply ∈ (handleStatusCommand servers serverName env toBuffer st).2.1 ∧
    (∀ b, (handleStatusCommand servers serverName env toBuffer st).2.2 = some b →
      ∃ server, servers.find? (fun s => toLowerStr s.name == toLowerStr serverName)
          = some server ∧
        generatePlayerChart toBuffer (st.playerHistory server.channelId)
          server.display.chart.color = some b) := by
  cases hfind : servers.find? (fun s => toLowerStr s.name == toLowerStr serverName) with
  | none => simp [handleStatusCommand, hfind]
  | some server =>
    by_cases hcg : (server.display.type == "chart" && server.display.chart.enabled
        && (checkServerStatus env.probeOutcome).isOnline) = true <;>
      simp [handleStatusCommand, hfind, hcg]

/-- Witness for C8: a concrete invocation (requested name differing from
the configured name only by case) leaves the state unchanged and attaches a
chart generated from the existing two-sample history snapshot. -/
theorem handleStatusCommand_single_shot_witness :
    (handleStatusCommand [sampleServer] "survival" sampleTickEnv sampleBackend
        sampleBotState).1 = sampleBotState ∧
    (∃ server, [sampleServer].find? (fun s => toLowerStr s.name == toLowerStr "survival")
        = some server ∧
      generatePlayerChart sampleBackend (sampleBotState.playerHistory server.channelId)
        server.display.chart.color = some [137]) := by
  have h := handleStatusCommand_single_shot [sampleServer] "survival" sampleTickEnv
    sampleBackend sampleBotState
  exact ⟨h.1, h.2.2.2.2.2 [137] (by rfl)⟩

/-- C10: the requested server name is matched against the configured
targets case-insensitively; when no target matches, the handler sends only
the not-found reply: the state is unchanged, no probe is performed, and no
chart is produced (hence no history mutation and no edit or create). -/
theorem handleStatusCommand_not_found (servers : List ServerConfig)
    (serverName : String) (env : TickEnv)
    (toBuffer : List Sample → String → List Nat) (st : BotState)
    (hnone : ∀ s ∈ servers, toLowerStr s.name ≠ toLowerStr serverName) :
    (handleStatusCommand servers serverName env toBuffer st).2.1 = [Event.reply] ∧
    (handleStatusCommand servers serverName env toBuffer st).1 = st ∧
    (∀ ip port, Event.probe ip port
      ∉ (handleStatusCommand servers serverName env toBuffer st).2.1) ∧
    (handleStatusCommand servers serverName env toBuffer st).2.2 = none := by
  have hfind : servers.find? (fun s => toLowerStr s.name == toLowerStr serverName)
      = none := by
    apply List.find?_eq_none.mpr
    intro s hs
    simp [hnone s hs]
  simp [handleStatusCommand, hfind]

/-- Witness for C10: requesting an unconfigured name yields only the
not-found reply and leaves the state unchanged. -/
theorem handleStatusCommand_not_found_witness :
    (handleStatusCommand [sampleServer] "creative" sampleTickEnv sampleBackend
        sampleBotState).2.1 = [Event.reply] ∧
    (handleStatusCommand [sampleServer] "creative" sampleTickEnv sampleBackend
        sampleBotState).1 = sampleBotState ∧
    Event.probe "mc.example.com" 25565
      ∉ (handleStatusCommand [sampleServer] "creative" sampleTickEnv sampleBackend
          sampleBotState).2.1 ∧
    (handleStatusCommand [sampleServer] "creative" sampleTickEnv sampleBackend
        sampleBotState).2.2 = none := by
  have h := handleStatusCommand_not_found [sampleServer] "creative" sampleTickEnv
    sampleBackend sampleBotState (by decide)
  exact ⟨h.1, h.2.1, h.2.2.1 "mc.example.com" 25565, h.2.2.2⟩

/-- Witness for C7 (amended): on a concrete tick whose channel fetch fails,
the trace is exactly the resolution step — the tick stops before any probe. -/
theorem updateServerStatus_step_order_witness :
    List.Sublist (updateServerStatus sampleServer noChannelTickEnv sampleBackend
        sampleBotState).2.1
      (tickCanonicalOrder sampleServer noChannelTickEnv) ∧
    (updateServerStatus sampleServer noChannelTickEnv sampleBackend
        sampleBotState).2.1 = [Event.fetchChannel 1] := by
  have h := updateServerStatus_step_order sampleServer noChannelTickEnv sampleBackend
    sampleBotState
  exact ⟨h.1, h.2.2 (by rfl)⟩
